import Mathlib

/-!
Verification of the real-time audio-transcription relay of the
RADIOLOGY-REPORTING-APP backend (src/index.js).

The development shallowly embeds two parts of the source:

1. the spoken-punctuation normalizer `applySpokenPunctuation`
   (src/index.js lines 155-184): a pipeline of eight case-insensitive
   whole-word regex replacements followed by five whitespace-normalization
   replacements and a trim.  Each JavaScript regex pass is embedded as a
   left-to-right scanner over `List Char` that reproduces the leftmost,
   greedy, global-replacement semantics of the concrete patterns used by
   the source.  Scanners take a fuel argument (always instantiated with
   the length of their input, which each step strictly decreases) so that
   all definitions are structurally recursive and kernel-evaluable.

2. the stream-mode session of the WebSocket handler
   (src/index.js lines 196-390): the per-session mutable state
   (the `dgOpen` flag, the pending 5-second handshake timer, the two
   socket states) and the event handlers registered on the client and
   upstream sockets, embedded as an explicit step function from session
   states and events to a new state plus a list of emitted I/O actions.
-/

namespace RadiologyRelay

/-- Whitespace class of a JavaScript regular expression (the character set
matched by `\s`, which is also the set stripped by `String.prototype.trim`). -/
def jsWs (c : Char) : Bool :=
  let n := c.toNat
  (9 ≤ n && n ≤ 13) || n = 32 || n = 160 || n = 5760 ||
    (8192 ≤ n && n ≤ 8202) || n = 8232 || n = 8233 || n = 8239 ||
    n = 8287 || n = 12288 || n = 65279

/-- Word-character class of a JavaScript regular expression (`\w`,
used by the word-boundary assertion): ASCII letters, digits and underscore. -/
def isWordChar (c : Char) : Bool :=
  c.isAlpha || c.isDigit || c = '_'

/-- Punctuation class `[.,!?;:]` used by the whitespace-normalization
replacements of `applySpokenPunctuation`. -/
def isPunctCls (c : Char) : Bool :=
  c = '.' || c = ',' || c = '!' || c = '?' || c = ';' || c = ':'

/-- Case-insensitive literal matcher: matches the (lowercase ASCII) pattern
against a prefix of the input, the way the `i` flag of the source regexes
canonicalizes ASCII letters, and returns the rest of the input. -/
def matchLitCi : List Char → List Char → Option (List Char)
  | [], l => some l
  | _ :: _, [] => none
  | p :: ps, c :: cs => if c.toLower = p then matchLitCi ps cs else none

/-- Matcher for `\s+` followed by a non-whitespace literal: consumes a
maximal nonempty whitespace run (the greedy match never backtracks here
because every continuation in the source patterns starts with a
non-whitespace character). -/
def mWs1 (l : List Char) : Option (List Char) :=
  match l with
  | c :: cs => if jsWs c then some (cs.dropWhile jsWs) else none
  | [] => none

/-- Matcher for `\s*` followed by a non-whitespace literal: consumes a
maximal (possibly empty) whitespace run. -/
def mWs0 (l : List Char) : List Char :=
  l.dropWhile jsWs

/-- Matcher for the body of `/\b(full\s+stop|period)\b/gi`. -/
def mFullStopPeriod (l : List Char) : Option (List Char) :=
  ((matchLitCi ("full".data) l).bind mWs1).bind (matchLitCi ("stop".data))
    <|> matchLitCi ("period".data) l

/-- Matcher for the body of `/\b(comma)\b/gi`. -/
def mComma (l : List Char) : Option (List Char) :=
  matchLitCi ("comma".data) l

/-- Matcher for the body of `/\b(question\s*mark|questionmark)\b/gi`. -/
def mQuestionMark (l : List Char) : Option (List Char) :=
  ((matchLitCi ("question".data) l).map mWs0).bind (matchLitCi ("mark".data))
    <|> matchLitCi ("questionmark".data) l

/-- Matcher for the body of
`/\b(exclamation\s*(mark|point)|exclamationmark)\b/gi`. -/
def mExclamation (l : List Char) : Option (List Char) :=
  ((matchLitCi ("exclamation".data) l).map mWs0).bind
      (fun r => matchLitCi ("mark".data) r <|> matchLitCi ("point".data) r)
    <|> matchLitCi ("exclamationmark".data) l

/-- Matcher for the body of `/\b(colon)\b/gi`. -/
def mColon (l : List Char) : Option (List Char) :=
  matchLitCi ("colon".data) l

/-- Matcher for the body of `/\b(semi[-\s]?colon)\b/gi`: the optional
middle character is tried greedily first, as the regex engine does. -/
def mSemiColon (l : List Char) : Option (List Char) :=
  (matchLitCi ("semi".data) l).bind
    (fun r =>
      match r with
      | c :: cs =>
          if c = '-' || jsWs c then
            matchLitCi ("colon".data) cs <|> matchLitCi ("colon".data) r
          else matchLitCi ("colon".data) r
      | [] => none)

/-- Matcher for the body of `/\b(new\s+line|newline)\b/gi`. -/
def mNewLine (l : List Char) : Option (List Char) :=
  ((matchLitCi ("new".data) l).bind mWs1).bind (matchLitCi ("line".data))
    <|> matchLitCi ("newline".data) l

/-- Matcher for the body of `/\b(new\s+paragraph)\b/gi`. -/
def mNewParagraph (l : List Char) : Option (List Char) :=
  ((matchLitCi ("new".data) l).bind mWs1).bind (matchLitCi ("paragraph".data))

/-- Word-boundary assertion at the end of a match: the next input character
is absent or not a word character (every source pattern ends in a letter). -/
def bAfter : List Char → Bool
  | [] => true
  | d :: _ => !isWordChar d

/-- Global whole-word replacement driver: the embedding of one
`text.replace(/\b(...)\b/gi, rep)` pass.  `prev` records whether the
character before the current position is a word character (every source
pattern starts and ends with a letter, so the two `\b` assertions reduce
to `prev = false` before the match and `bAfter` after it).  After a match
the scan resumes at the end of the matched text, whose last character is a
letter, hence `prev := true`.  The fuel is instantiated with the input
length; every step consumes at least one input character. -/
def replaceTok (m : List Char → Option (List Char)) (rep : List Char) :
    Nat → Bool → List Char → List Char
  | 0, _, l => l
  | _ + 1, _, [] => []
  | fuel + 1, prev, c :: cs =>
    if prev then c :: replaceTok m rep fuel (isWordChar c) cs
    else
      match m (c :: cs) with
      | some rest =>
          if bAfter rest then rep ++ replaceTok m rep fuel true rest
          else c :: replaceTok m rep fuel (isWordChar c) cs
      | none => c :: replaceTok m rep fuel (isWordChar c) cs

/-- Embedding of `text.replace(/\s+([.,!?;:])/g, '$1')`: a maximal
whitespace run immediately followed by a punctuation character is deleted
(no match can start strictly inside a run whose following character is not
punctuation, since `\s+` is followed by a non-whitespace character). -/
def stageA : Nat → List Char → List Char
  | 0, l => l
  | _ + 1, [] => []
  | fuel + 1, c :: cs =>
    if jsWs c then
      match cs.dropWhile jsWs with
      | p :: rest => if isPunctCls p then p :: stageA fuel rest
                     else (c :: cs.takeWhile jsWs) ++ stageA fuel (p :: rest)
      | [] => c :: cs
    else c :: stageA fuel cs

/-- Embedding of `text.replace(/([.,!?;:])(?!\s|\n)/g, '$1 ')`: after a
punctuation character that is not followed by whitespace (including at end
of input, where the negative lookahead succeeds) a single space is
inserted; the scan resumes on the input after the punctuation character. -/
def stageB : List Char → List Char
  | [] => []
  | c :: cs =>
    if isPunctCls c then
      match cs with
      | [] => [c, ' ']
      | d :: _ => if jsWs d then c :: stageB cs else c :: ' ' :: stageB cs
    else c :: stageB cs

/-- Transformation of one maximal whitespace run under
`text.replace(/\s+\n/g, '\n')`: the greedy backtracking match inside the
run consumes everything up to and including the last newline of the run,
provided that newline is not the first run character; the run suffix after
that newline contains no further newline, so no second match starts in it. -/
def runC (run : List Char) : List Char :=
  match (run.reverse.dropWhile (fun c => c ≠ '\n')) with
  | [] => run
  | _ :: beforeRev =>
      if beforeRev.isEmpty then run
      else '\n' :: (run.reverse.takeWhile (fun c => c ≠ '\n')).reverse

/-- Embedding of `text.replace(/\s+\n/g, '\n')`, applied run by run. -/
def stageC : Nat → List Char → List Char
  | 0, l => l
  | _ + 1, [] => []
  | fuel + 1, c :: cs =>
    if jsWs c then
      runC (c :: cs.takeWhile jsWs) ++ stageC fuel (cs.dropWhile jsWs)
    else c :: stageC fuel cs

/-- Embedding of `text.replace(/\n\s+/g, '\n')`: a newline followed by a
nonempty whitespace run absorbs the whole run. -/
def stageD : Nat → List Char → List Char
  | 0, l => l
  | _ + 1, [] => []
  | fuel + 1, c :: cs =>
    if c = '\n' then
      match cs with
      | d :: _ =>
          if jsWs d then '\n' :: stageD fuel (cs.dropWhile jsWs)
          else c :: stageD fuel cs
      | [] => [c]
    else c :: stageD fuel cs

/-- Embedding of `text.replace(/\s{2,}/g, ' ')`: a maximal whitespace run
of length at least two collapses to a single space. -/
def stageE : Nat → List Char → List Char
  | 0, l => l
  | _ + 1, [] => []
  | fuel + 1, c :: cs =>
    if jsWs c then
      match cs with
      | d :: _ =>
          if jsWs d then ' ' :: stageE fuel (cs.dropWhile jsWs)
          else c :: stageE fuel cs
      | [] => [c]
    else c :: stageE fuel cs

/-- Embedding of `String.prototype.trim`: strips the JavaScript whitespace
class from both ends. -/
def jsTrimL (l : List Char) : List Char :=
  ((l.dropWhile jsWs).reverse.dropWhile jsWs).reverse

/-- String version of `jsTrimL`; used for the source's
`transcript.trim()` emptiness test as well as the final trim of the
normalizer. -/
def jsTrimStr (s : String) : String :=
  String.mk (jsTrimL s.data)

/-- Embedding of `applySpokenPunctuation` (src/index.js lines 155-184):
the eight spoken-punctuation replacement passes in source order, followed
by the five whitespace-normalization passes and the final trim.  An empty
input is falsy in JavaScript and is returned unchanged. -/
def applySpokenPunctuation (input : String) : String :=
  if input = "" then input
  else
    let l0 := input.data
    let r1 := replaceTok mFullStopPeriod ['.'] l0.length false l0
    let r2 := replaceTok mComma [','] r1.length false r1
    let r3 := replaceTok mQuestionMark ['?'] r2.length false r2
    let r4 := replaceTok mExclamation ['!'] r3.length false r3
    let r5 := replaceTok mColon [':'] r4.length false r4
    let r6 := replaceTok mSemiColon [';'] r5.length false r5
    let r7 := replaceTok mNewLine ['\n'] r6.length false r6
    let r8 := replaceTok mNewParagraph ['\n', '\n'] r7.length false r7
    let a := stageA r8.length r8
    let b := stageB a
    let c := stageC b.length b
    let d := stageD c.length c
    let e := stageE d.length d
    String.mk (jsTrimL e)

/-!
Embedding of the stream-mode session of the WebSocket connection handler
(src/index.js lines 196-390).  A session holds four pieces of mutable
state: the upstream readiness flag `dgOpen` (line 278), the pending
5-second handshake timer `dgTimeout` (lines 281-287), and the transport
states of the two sockets.  Each registered event handler is embedded as
one branch of a step function from a session state and an incoming event
to the successor state and the list of I/O actions the handler performs,
in order.  Sends are modelled as emitted actions (the source wraps them in
try/catch, so a failed send has no further effect on the session state).
-/

/-- Messages the server sends to the client over the WebSocket, as the
JSON frames built in src/index.js, discriminated by their type field. -/
inductive CMsg where
  | welcome (msg : String)
  | ready
  | error (message : String)
  | done
  | transcript (text : String) (isFinal : Bool)
deriving DecidableEq, Repr

/-- I/O actions a handler of the stream-mode session performs. -/
inductive Act where
  | sendClient (m : CMsg)
  | sendUpstream (chunk : Nat)
  | closeUpstream
  | closeClient (code : Option Nat)
  | connectUpstream
deriving DecidableEq, Repr

/-- Events delivered to the handlers of one stream-mode session: the four
upstream socket events, the client socket events, and the firing of the
5-second handshake timer.  An upstream message is modelled after JSON
decoding, carrying the fields the handler reads (the message type, the
first alternative's transcript defaulted to the empty string, and the two
finality flags). -/
inductive Ev where
  | upOpen
  | upError (msg : String)
  | upClose
  | upMessage (type_ : String) (transcript : String)
      (isFinal : Bool) (speechFinal : Bool)
  | clBinary (chunk : Nat)
  | clText (s : String)
  | clClose
  | timerFire
deriving DecidableEq, Repr

/-- Mutable state of one stream-mode session.  `upstreamReadyState`
mirrors `dgWs.readyState` (0 connecting, 1 open, 2 closing, 3 closed);
`dgOpen` is the readiness flag of line 278; `timerActive` records whether
`dgTimeout` is still pending (neither cleared nor fired); `clientOpen`
records whether the client socket has been closed by either side.  The
state holds no queue of any kind: the source never buffers frames. -/
structure SessionState where
  dgOpen : Bool
  timerActive : Bool
  clientOpen : Bool
  upstreamReadyState : Nat
deriving DecidableEq, Repr

/-- Session state right after the upstream WebSocket is constructed and
the handshake timer armed (src/index.js lines 271-287). -/
def initSession : SessionState :=
  { dgOpen := false, timerActive := true, clientOpen := true,
    upstreamReadyState := 0 }

/-- Readystate update performed by a `close()` call on a socket that may
already be closing or closed. -/
def closeRS (n : Nat) : Nat :=
  if n ≤ 1 then 2 else n

/-- Embedding of the upstream message handler `dgWs.on('message')`
(src/index.js lines 320-349): only messages of type Results are
considered; the transcript is forwarded iff it is nonempty after
trimming, with `applySpokenPunctuation` applied unconditionally and the
finality flag the disjunction of `is_final` and `speech_final`.  The
session's negotiated `punct` query parameter (line 227) is in scope in
the source but never consulted by this handler. -/
def onUpstreamMessage (punct : String) (type_ : String) (transcript : String)
    (isFinal : Bool) (speechFinal : Bool) : List Act :=
  if type_ = "Results" then
    if jsTrimStr transcript ≠ "" then
      [Act.sendClient (CMsg.transcript (applySpokenPunctuation transcript)
        (isFinal || speechFinal))]
    else []
  else []

/-- Text field the specification prescribes for a forwarded transcript
message.  Modelled from the spec: the transcript text is passed through
the punctuation normalizer unless the client negotiated upstream-provided
punctuation with the handshake query parameter punct=true, in which case
it is relayed without applying the normalizer.  This definition follows
the spec's words and is compared against the source's handler, which
normalizes unconditionally. -/
def specTranscriptText (punct : String) (transcript : String) : String :=
  if punct = "true" then transcript else applySpokenPunctuation transcript

/-- One step of the stream-mode session: dispatches an event to the
corresponding handler of src/index.js and returns the successor state
together with the emitted actions, in program order.

* `upOpen` (lines 289-301): clears the timer, sets `dgOpen`, sends ready.
* `upError` (lines 303-313): clears the timer, sends an error message,
  closes the client socket with code 1011.
* `upClose` (lines 315-318): sends a done message; nothing else.
* `upMessage` (lines 320-349): per `onUpstreamMessage`.
* `clBinary`/`clText` (lines 351-382): dropped entirely while `dgOpen` is
  false; a binary frame is forwarded iff `dgWs.readyState === 1`; the text
  frame FINISH closes the upstream socket; other text is ignored.
* `clClose` (lines 384-387): closes the upstream socket.
* `timerFire` (lines 281-287): only a pending timer can fire; the handler
  body is guarded by `!dgOpen` and then closes the upstream socket and the
  client socket (code 1011) without sending any message. -/
def step (punct : String) (s : SessionState) : Ev → SessionState × List Act
  | Ev.upOpen =>
      ({ s with timerActive := false, dgOpen := true, upstreamReadyState := 1 },
       [Act.sendClient CMsg.ready])
  | Ev.upError m =>
      ({ s with timerActive := false, clientOpen := false },
       [Act.sendClient (CMsg.error ("TranscriptionService error: " ++ m)),
        Act.closeClient (some 1011)])
  | Ev.upClose =>
      ({ s with upstreamReadyState := 3 }, [Act.sendClient CMsg.done])
  | Ev.upMessage t tr f sf => (s, onUpstreamMessage punct t tr f sf)
  | Ev.clBinary chunk =>
      if !s.dgOpen then (s, [])
      else if s.upstreamReadyState = 1 then (s, [Act.sendUpstream chunk])
      else (s, [])
  | Ev.clText t =>
      if !s.dgOpen then (s, [])
      else if t = "FINISH" then
        ({ s with upstreamReadyState := closeRS s.upstreamReadyState },
         [Act.closeUpstream])
      else (s, [])
  | Ev.clClose =>
      ({ s with clientOpen := false,
                upstreamReadyState := closeRS s.upstreamReadyState },
       [Act.closeUpstream])
  | Ev.timerFire =>
      if !s.timerActive then (s, [])
      else if !s.dgOpen then
        ({ s with timerActive := false, clientOpen := false,
                  upstreamReadyState := closeRS s.upstreamReadyState },
         [Act.closeUpstream, Act.closeClient (some 1011)])
      else ({ s with timerActive := false }, [])

/-- Runs a session from a state through a list of events, accumulating the
emitted actions in order. -/
def runSession (punct : String) : SessionState → List Ev → SessionState × List Act
  | s, [] => (s, [])
  | s, e :: es =>
      let p := step punct s e
      let q := runSession punct p.1 es
      (q.1, p.2 ++ q.2)

/-- Actions emitted by the handshake-timer handler alone along a trace:
collects the output of exactly the `timerFire` steps. -/
def timerFireActs (punct : String) : SessionState → List Ev → List Act
  | _, [] => []
  | s, e :: es =>
      let p := step punct s e
      (if e = Ev.timerFire then p.2 else []) ++ timerFireActs punct p.1 es

/-- Embedding of the connection handler's mode dispatch
(src/index.js lines 196-221 and 392-393): in stream mode with no
configured upstream API key the handler sends a single error message and
closes the client socket without ever constructing the upstream socket;
with a key it constructs the upstream socket; any other mode enters echo
mode and sends the welcome message. -/
def onConnection (mode : String) (keyConfigured : Bool) : List Act :=
  if mode = "stream" then
    if !keyConfigured then
      [Act.sendClient (CMsg.error ("TranscriptionService API key not configured")),
       Act.closeClient none]
    else [Act.connectUpstream]
  else [Act.sendClient (CMsg.welcome ("Hello from WS backend"))]

/-- Tests whether an action is the sending of an error message. -/
def isErrorSend : Act → Bool
  | Act.sendClient (CMsg.error _) => true
  | _ => false

/-- Tests whether an action is the sending of the ready message. -/
def isReadySend : Act → Bool
  | Act.sendClient CMsg.ready => true
  | _ => false

/-- Tests whether an action sends a frame to the upstream socket. -/
def isUpstreamSend : Act → Bool
  | Act.sendUpstream _ => true
  | _ => false

/-- Tests whether an action closes the client socket. -/
def isClientClose : Act → Bool
  | Act.closeClient _ => true
  | _ => false

/-!
Helper lemmas about the session step function, shared by several claims.
-/

/-- No event handler of the session ever resets the readiness flag. -/
theorem step_preserves_dgOpen (punct : String) (s : SessionState) (e : Ev)
    (hs : s.dgOpen = true) : (step punct s e).1.dgOpen = true := by
  cases e <;> simp [step, hs, onUpstreamMessage] <;> split <;> simp [hs]

/-- The readiness flag can only be set by the upstream open event. -/
theorem step_dgOpen_stays_false (punct : String) (s : SessionState) (e : Ev)
    (hs : s.dgOpen = false) (he : e ≠ Ev.upOpen) :
    (step punct s e).1.dgOpen = false := by
  cases e <;> simp_all [step, onUpstreamMessage] <;> split <;> simp [hs]

/-- An upstream message handler invocation emits no upstream send: its
only possible action is a transcript message to the client. -/
theorem onUpstreamMessage_no_upstream_send (punct t tr : String) (f sf : Bool) :
    (onUpstreamMessage punct t tr f sf).filter isUpstreamSend = [] := by
  unfold onUpstreamMessage
  split
  · split <;> rfl
  · rfl

/-- No handler emits an upstream send while the readiness flag is false
(the only send-to-upstream site is guarded by `dgOpen`). -/
theorem step_no_upstream_send (punct : String) (s : SessionState) (e : Ev)
    (hs : s.dgOpen = false) :
    (step punct s e).2.filter isUpstreamSend = [] := by
  cases e with
  | upOpen => rfl
  | upError m => rfl
  | upClose => rfl
  | upMessage t tr f sf => exact onUpstreamMessage_no_upstream_send punct t tr f sf
  | clBinary c => simp [step, hs]
  | clText t => simp [step, hs]
  | clClose => rfl
  | timerFire => cases h : s.timerActive <;> simp [step, hs, h, isUpstreamSend]

/-- Along any trace that never delivers the upstream open event, a session
that is not ready stays not ready and forwards nothing upstream. -/
theorem runSession_no_upstream_send (punct : String) (t : List Ev)
    (s : SessionState) (hs : s.dgOpen = false) (ht : Ev.upOpen ∉ t) :
    (runSession punct s t).2.filter isUpstreamSend = [] := by
  induction t generalizing s with
  | nil => rfl
  | cons e es ih =>
      simp only [List.mem_cons, not_or] at ht
      simp only [runSession, List.filter_append]
      rw [step_no_upstream_send punct s e hs,
        ih _ (step_dgOpen_stays_false punct s e hs (fun h => ht.1 h.symm)) ht.2]
      rfl

/-- Running a concatenated trace reaches the state reached by running the
two parts in sequence. -/
theorem runSession_append_fst (punct : String) (t1 t2 : List Ev)
    (s : SessionState) :
    (runSession punct s (t1 ++ t2)).1 =
      (runSession punct (runSession punct s t1).1 t2).1 := by
  induction t1 generalizing s with
  | nil => rfl
  | cons e es ih => simp [runSession, ih]

/-- Once the session is ready, the timer handler's body is skipped: a
firing timer emits no action at all. -/
theorem step_timer_silent (punct : String) (s : SessionState)
    (hs : s.dgOpen = true) : (step punct s Ev.timerFire).2 = [] := by
  simp [step, hs]
  split <;> rfl

/-- Once the session is ready, timer firings along any continuation of the
trace emit no action. -/
theorem timerFireActs_nil_of_ready (punct : String) (t : List Ev)
    (s : SessionState) (hs : s.dgOpen = true) :
    timerFireActs punct s t = [] := by
  induction t generalizing s with
  | nil => rfl
  | cons e es ih =>
      simp only [timerFireActs]
      rw [ih _ (step_preserves_dgOpen punct s e hs)]
      split
      next h => rw [h, step_timer_silent punct s hs]; rfl
      next => rfl

/-!
The ten claims.
-/

/-- C9 (confirmed): the normalizer maps the spec's example sentence
"Heart is enlarged full stop no other findings comma normal otherwise
period" to "Heart is enlarged. no other findings, normal otherwise.". -/
theorem c9_normalizer_example :
    applySpokenPunctuation
        ("Heart is enlarged full stop no other findings comma normal otherwise period") =
      "Heart is enlarged. no other findings, normal otherwise." := by decide

/-- C7 counterexample: the normalizer is not idempotent.  On the input
"full new line stop" the first application substitutes the newline, which
joins "full" and "stop" across whitespace, and the second application then
substitutes the newly-formed phrase full-stop: normalize gives a string
that normalizes again to ".", a different string. -/
theorem c7_not_idempotent_counterexample :
    applySpokenPunctuation ("full new line stop") = "full\nstop" ∧
    applySpokenPunctuation (applySpokenPunctuation ("full new line stop")) = "." ∧
    applySpokenPunctuation (applySpokenPunctuation ("full new line stop")) ≠
      applySpokenPunctuation ("full new line stop") := by decide

/-- C7 amended: normalization is idempotent on representative inputs whose
first normalization leaves no spoken-punctuation phrase behind — among
them the spec's example sentence, mixed-case phrases, clustered
punctuation with surrounding spacing, and the empty string — though not in
general, since a substituted newline can join the words of a two-word
phrase and enable a further substitution on the second application. -/
theorem c7_idempotent_on_examples :
    (applySpokenPunctuation (applySpokenPunctuation
        ("Heart is enlarged full stop no other findings comma normal otherwise period")) =
      applySpokenPunctuation
        ("Heart is enlarged full stop no other findings comma normal otherwise period")) ∧
    (applySpokenPunctuation (applySpokenPunctuation ("HeLLo CoMMa WoRLD question mark")) =
      applySpokenPunctuation ("HeLLo CoMMa WoRLD question mark")) ∧
    (applySpokenPunctuation (applySpokenPunctuation ("a , , b")) =
      applySpokenPunctuation ("a , , b")) ∧
    (applySpokenPunctuation (applySpokenPunctuation ("x .y")) =
      applySpokenPunctuation ("x .y")) ∧
    (applySpokenPunctuation (applySpokenPunctuation ("a new paragraph b")) =
      applySpokenPunctuation ("a new paragraph b")) ∧
    (applySpokenPunctuation (applySpokenPunctuation ("")) =
      applySpokenPunctuation ("")) := by decide

/-- C8 (code bug): evaluation of the normalizer on the documented mapping.
The single-word tokens and two-word phrases map to their documented
symbols, but the two claimed semicolon variants with a hyphen or space do
not: the colon rule runs before the semicolon rule, so "semi-colon" and
"semi colon" yield "semi-:" and "semi:" instead of ";" (the hyphen/space
branch of the source's own semicolon pattern is unreachable).  Likewise
"new paragraph" is first replaced by a double newline, which the
whitespace normalization `\s+\n -> \n` then collapses, so the output
carries a single newline in its place rather than the documented double
newline. -/
theorem c8_mapping_evaluation :
    applySpokenPunctuation ("a full stop b") = "a. b" ∧
    applySpokenPunctuation ("a period b") = "a. b" ∧
    applySpokenPunctuation ("a comma b") = "a, b" ∧
    applySpokenPunctuation ("a question mark b") = "a? b" ∧
    applySpokenPunctuation ("a exclamation mark b") = "a! b" ∧
    applySpokenPunctuation ("a exclamation point b") = "a! b" ∧
    applySpokenPunctuation ("a colon b") = "a: b" ∧
    applySpokenPunctuation ("a semicolon b") = "a; b" ∧
    applySpokenPunctuation ("a new line b") = "a\nb" ∧
    applySpokenPunctuation ("A QuEsTiOn MaRk b") = "A? b" ∧
    applySpokenPunctuation ("a semi-colon b") = "a semi-: b" ∧
    applySpokenPunctuation ("a semi colon b") = "a semi: b" ∧
    applySpokenPunctuation ("a new paragraph b") = "a\nb" := by decide

/-- C4 counterexample: with upstream punctuation negotiated (punct=true),
the source's upstream message handler still applies the normalizer.  For
the transcript "hello comma world" the message sent to the client carries
"hello, world", whereas the claim prescribes relaying the raw transcript
unchanged in this case. -/
theorem c4_punct_negotiation_counterexample :
    onUpstreamMessage ("true") ("Results") ("hello comma world") false false =
      [Act.sendClient (CMsg.transcript ("hello, world") false)] ∧
    specTranscriptText ("true") ("hello comma world") = "hello comma world" ∧
    ("hello, world" : String) ≠ "hello comma world" := by decide

/-- C4 amended: for every upstream transcript event whose trimmed text is
non-empty, exactly one transcript message is sent to the client, and its
text is always the transcript passed through the punctuation normalizer —
regardless of the negotiated punct setting, which the handler ignores. -/
theorem c4_transcript_always_normalized (punct t : String) (f sf : Bool)
    (h : jsTrimStr t ≠ "") :
    onUpstreamMessage punct ("Results") t f sf =
      [Act.sendClient (CMsg.transcript (applySpokenPunctuation t) (f || sf))] := by
  simp [onUpstreamMessage, h]

/-- Witness for the C4 amended theorem at punct=true and a concrete
non-blank transcript. -/
theorem c4_transcript_always_normalized_witness :
    jsTrimStr ("hello comma world") ≠ "" ∧
    onUpstreamMessage ("true") ("Results") ("hello comma world") true false =
      [Act.sendClient (CMsg.transcript
        (applySpokenPunctuation ("hello comma world")) (true || false))] :=
  ⟨by decide,
   c4_transcript_always_normalized ("true") ("hello comma world") true false
     (by decide)⟩

/-- C1 counterexample: in the reachable session in which the upstream
handshake completed and the upstream connection then closed, the upstream
socket is closed while the client socket remains open, and no action of
the whole trace closed the client: the upstream close handler only sends a
done message. -/
theorem c1_upstream_close_leaves_client_open :
    (runSession ("false") initSession [Ev.upOpen, Ev.upClose]).1.upstreamReadyState = 3 ∧
    (runSession ("false") initSession [Ev.upOpen, Ev.upClose]).1.clientOpen = true ∧
    (runSession ("false") initSession [Ev.upOpen, Ev.upClose]).2.filter isClientClose = [] := by
  decide

/-- C1 amended: teardown is asymmetric.  Closing the client leg always
closes the upstream leg, and an upstream close always emits the terminal
done message to the client — but it closes nothing: the client socket's
state is unchanged by the upstream close handler. -/
theorem c1_asymmetric_close (punct : String) (s : SessionState) :
    (step punct s Ev.clClose).2 = [Act.closeUpstream] ∧
    (step punct s Ev.upClose).2 = [Act.sendClient CMsg.done] ∧
    (step punct s Ev.upClose).1.clientOpen = s.clientOpen := by
  exact ⟨rfl, rfl, rfl⟩

/-- C2 (confirmed): along any trace in which the upstream never becomes
ready, the session forwards zero frames to the upstream connection; and a
binary frame arriving while the readiness flag is false is dropped with no
action and no state change — the session state has no queue, so nothing is
retained for later delivery. -/
theorem c2_no_forward_before_ready (punct : String) (t : List Ev)
    (ht : Ev.upOpen ∉ t) (s : SessionState) (c : Nat)
    (hs : s.dgOpen = false) :
    (runSession punct initSession t).2.filter isUpstreamSend = [] ∧
    step punct s (Ev.clBinary c) = (s, []) := by
  refine ⟨runSession_no_upstream_send punct t initSession rfl ht, ?_⟩
  simp [step, hs]

/-- Witness for C2 on a concrete pre-ready trace carrying two audio frames
and a control frame. -/
theorem c2_no_forward_before_ready_witness :
    Ev.upOpen ∉ [Ev.clBinary 1, Ev.clText ("FINISH"), Ev.timerFire, Ev.clBinary 2] ∧
    initSession.dgOpen = false ∧
    ((runSession ("false") initSession
        [Ev.clBinary 1, Ev.clText ("FINISH"), Ev.timerFire, Ev.clBinary 2]).2.filter
          isUpstreamSend = [] ∧
     step ("false") initSession (Ev.clBinary 7) = (initSession, [])) :=
  ⟨by decide, rfl,
   c2_no_forward_before_ready ("false")
     [Ev.clBinary 1, Ev.clText ("FINISH"), Ev.timerFire, Ev.clBinary 2]
     (by decide) initSession 7 rfl⟩

/-- C3 counterexample: in the initial stream-mode state (upstream created,
not yet ready — the AWAITING_UPSTREAM_READY state), a client text frame
FINISH is dropped by the `!dgOpen` guard: the handler emits no action at
all, in particular it does not close the upstream connection. -/
theorem c3_finish_dropped_before_ready :
    initSession.dgOpen = false ∧
    step ("false") initSession (Ev.clText ("FINISH")) = (initSession, []) ∧
    Act.closeUpstream ∉ (step ("false") initSession (Ev.clText ("FINISH"))).2 := by
  decide

/-- C3 amended: a FINISH text frame arriving before the upstream is ready
is dropped without any effect, like every other client message in that
state; only once the upstream is ready does FINISH trigger the upstream
close. -/
theorem c3_finish_noop_before_ready (punct : String) (s s2 : SessionState)
    (hs : s.dgOpen = false) (h2 : s2.dgOpen = true) :
    step punct s (Ev.clText ("FINISH")) = (s, []) ∧
    (step punct s2 (Ev.clText ("FINISH"))).2 = [Act.closeUpstream] := by
  constructor
  · simp [step, hs]
  · simp [step, h2]

/-- Witness for the C3 amended theorem: before readiness FINISH is a
no-op; after the ready transition it closes the upstream socket. -/
theorem c3_finish_noop_before_ready_witness :
    initSession.dgOpen = false ∧
    (step ("false") initSession Ev.upOpen).1.dgOpen = true ∧
    (step ("false") initSession (Ev.clText ("FINISH"))) = (initSession, []) ∧
    (step ("false") (step ("false") initSession Ev.upOpen).1
        (Ev.clText ("FINISH"))).2 = [Act.closeUpstream] :=
  ⟨rfl, rfl,
   (c3_finish_noop_before_ready ("false") initSession
      (step ("false") initSession Ev.upOpen).1 rfl rfl).1,
   (c3_finish_noop_before_ready ("false") initSession
      (step ("false") initSession Ev.upOpen).1 rfl rfl).2⟩

/-- C5 (confirmed): a connection entering stream mode with no configured
upstream API key performs exactly two actions — one error message to the
client followed by closing the client socket.  Exactly one error message
is sent, no ready message is sent, and the upstream socket is never
constructed. -/
theorem c5_missing_key_direct_close :
    onConnection ("stream") false =
      [Act.sendClient (CMsg.error ("TranscriptionService API key not configured")),
       Act.closeClient none] ∧
    ((onConnection ("stream") false).filter isErrorSend).length = 1 ∧
    ((onConnection ("stream") false).filter isReadySend).length = 0 ∧
    Act.connectUpstream ∉ onConnection ("stream") false ∧
    Act.closeClient none ∈ onConnection ("stream") false := by decide

/-- C6 counterexample: when the 5-second handshake timer fires on a
session that never became ready, the handler closes the upstream socket
and closes the client socket with code 1011, but it sends no error message
at all — the client receives zero error messages from this path, not
exactly one as claimed. -/
theorem c6_timeout_sends_no_error :
    (step ("false") initSession Ev.timerFire).2 =
      [Act.closeUpstream, Act.closeClient (some 1011)] ∧
    ((step ("false") initSession Ev.timerFire).2.filter isErrorSend).length = 0 := by
  decide

/-- C6 amended: for every stream-mode session whose upstream connection is
not ready when the pending 5-second handshake timer fires, the upstream
connection is closed and the client connection is closed with code 1011;
no error message is sent to the client by this path. -/
theorem c6_timeout_closes_both_without_error (punct : String)
    (s : SessionState) (ht : s.timerActive = true) (hd : s.dgOpen = false) :
    (step punct s Ev.timerFire).2 =
      [Act.closeUpstream, Act.closeClient (some 1011)] ∧
    (step punct s Ev.timerFire).2.filter isErrorSend = [] ∧
    (step punct s Ev.timerFire).1.clientOpen = false := by
  simp [step, ht, hd, isErrorSend]

/-- Witness for the C6 amended theorem at the initial session state. -/
theorem c6_timeout_closes_both_without_error_witness :
    initSession.timerActive = true ∧ initSession.dgOpen = false ∧
    ((step ("false") initSession Ev.timerFire).2 =
        [Act.closeUpstream, Act.closeClient (some 1011)] ∧
     (step ("false") initSession Ev.timerFire).2.filter isErrorSend = [] ∧
     (step ("false") initSession Ev.timerFire).1.clientOpen = false) :=
  ⟨rfl, rfl,
   c6_timeout_closes_both_without_error ("false") initSession rfl rfl⟩

/-- C10 (confirmed): after any trace ending with the upstream open event,
the session is ready, the handshake timer has been cleared, and along any
continuation of the trace the timer handler never emits an action — in
particular the timeout's closing branch never executes on a session that
has reached ready, both because the timer was cleared on open and because
the handler body is guarded by the readiness flag. -/
theorem c10_timeout_harmless_after_open (punct : String) (t1 t2 : List Ev) :
    (runSession punct initSession (t1 ++ [Ev.upOpen])).1.dgOpen = true ∧
    (runSession punct initSession (t1 ++ [Ev.upOpen])).1.timerActive = false ∧
    timerFireActs punct (runSession punct initSession (t1 ++ [Ev.upOpen])).1 t2 = [] := by
  have h1 : (runSession punct initSession (t1 ++ [Ev.upOpen])).1 =
      (step punct (runSession punct initSession t1).1 Ev.upOpen).1 := by
    rw [runSession_append_fst]
    rfl
  have hopen : (runSession punct initSession (t1 ++ [Ev.upOpen])).1.dgOpen = true := by
    rw [h1]; rfl
  refine ⟨hopen, ?_, timerFireActs_nil_of_ready punct t2 _ hopen⟩
  rw [h1]; rfl

end RadiologyRelay
